import Mathlib

/-!
Verification of the wrist-watch game core (watch firmware main file).

The definitions below are a shallow embedding of the C++ source: the
linear-congruential PRNG, the Tamagotchi pet-stat mutations, the Tetris
grid operations, the Snake tick, the Breakout tick, and the Asteroids
bullet-collision processing.  Machine integers are modelled as `ℤ`/`ℕ`
with explicit `% 2 ^ 31` where the source masks with `0x7fffffff`;
`float` quantities are modelled as `ℚ`; the game loops that block on
the PRNG (rejection sampling for the snake food) take explicit fuel and
return `Option`.
-/

/-! ## Deterministic PRNG (`seed_rng` / `rng`) -/

/-- One step of the LCG: `rng_seed = (rng_seed * 1103515245 + 12345) & 0x7fffffff`.
The state is the full content of the `unsigned long` variable `rng_seed`. -/
def rng_step (s : ℕ) : ℕ :=
  (s * 1103515245 + 12345) % 2147483648

/-- `long rng(long max_val)`: advances the state and returns
`rng_seed % max_val` together with the new state.  For `max_val > 0` the C
unsigned modulo agrees with `Int.emod` on the non-negative state. -/
def rng (max_val : ℤ) (s : ℕ) : ℤ × ℕ :=
  let s' := rng_step s
  ((s' : ℤ) % max_val, s')

/-- `long rng(long min_val, long max_val)`: `min_val + rng(max_val - min_val)`. -/
def rng2 (min_val max_val : ℤ) (s : ℕ) : ℤ × ℕ :=
  let r := rng (max_val - min_val) s
  (min_val + r.1, r.2)

/-- A whole run of the PRNG: outputs of successive `rng(min, max)` calls
from a given seed, threading the state. -/
def rng_run (s : ℕ) : List (ℤ × ℤ) → List ℤ
  | [] => []
  | q :: qs => (rng2 q.1 q.2 s).1 :: rng_run (rng2 q.1 q.2 s).2 qs

/-! ## Tamagotchi pet stats -/

/-- The four pet stat attributes (fields `hunger`, `happiness`, `health`,
`cleanliness` of `struct Tamagotchi`; `uint8_t` in the source, mutated
through `int` arithmetic with `min`/`max` clamps). -/
structure Tamagotchi where
  hunger : ℤ
  happiness : ℤ
  health : ℤ
  cleanliness : ℤ

/-- Stat values of `init_pet()`. -/
def init_pet : Tamagotchi :=
  { hunger := 50, happiness := 50, health := 100, cleanliness := 100 }

/-- FEED button: `hunger = min(100, hunger + 20); happiness = min(100, happiness + 5)`. -/
def pet_feed (p : Tamagotchi) : Tamagotchi :=
  { p with hunger := min 100 (p.hunger + 20), happiness := min 100 (p.happiness + 5) }

/-- PLAY button: `happiness = min(100, happiness + 20); hunger = max(0, hunger - 5)`. -/
def pet_play (p : Tamagotchi) : Tamagotchi :=
  { p with happiness := min 100 (p.happiness + 20), hunger := max 0 (p.hunger - 5) }

/-- CLEAN button: `cleanliness = 100; happiness = min(100, happiness + 10)`. -/
def pet_clean (p : Tamagotchi) : Tamagotchi :=
  { p with cleanliness := 100, happiness := min 100 (p.happiness + 10) }

/-- MED button: `health = min(100, health + 30)`. -/
def pet_medicine (p : Tamagotchi) : Tamagotchi :=
  { p with health := min 100 (p.health + 30) }

/-- The 30-second stat decay in `loop()`: hunger −2, happiness −1,
cleanliness −1 (each only while positive, floored at 0), then health −3
whenever the updated hunger < 20 or happiness < 20 or cleanliness < 30. -/
def pet_decay (p : Tamagotchi) : Tamagotchi :=
  let hunger' := if p.hunger > 0 then max 0 (p.hunger - 2) else p.hunger
  let happiness' := if p.happiness > 0 then max 0 (p.happiness - 1) else p.happiness
  let cleanliness' := if p.cleanliness > 0 then max 0 (p.cleanliness - 1) else p.cleanliness
  let health' :=
    if hunger' < 20 ∨ happiness' < 20 ∨ cleanliness' < 30 then max 0 (p.health - 3)
    else p.health
  { hunger := hunger', happiness := happiness', health := health', cleanliness := cleanliness' }

/-- The pet mutations reachable from the Tamagotchi screen: the four touch
actions and the periodic decay tick. -/
inductive PetAction
  | feed
  | play
  | clean
  | medicine
  | decay
deriving DecidableEq

def pet_apply : PetAction → Tamagotchi → Tamagotchi
  | .feed => pet_feed
  | .play => pet_play
  | .clean => pet_clean
  | .medicine => pet_medicine
  | .decay => pet_decay

/-- Apply a sequence of pet actions in order. -/
def pet_run : List PetAction → Tamagotchi → Tamagotchi
  | [], p => p
  | a :: acts, p => pet_run acts (pet_apply a p)

/-- All four stats lie in `[0, 100]`. -/
def pet_stats_in_range (p : Tamagotchi) : Prop :=
  0 ≤ p.hunger ∧ p.hunger ≤ 100 ∧
  0 ≤ p.happiness ∧ p.happiness ≤ 100 ∧
  0 ≤ p.health ∧ p.health ≤ 100 ∧
  0 ≤ p.cleanliness ∧ p.cleanliness ≤ 100

instance (p : Tamagotchi) : Decidable (pet_stats_in_range p) := by
  unfold pet_stats_in_range; infer_instance

/-! ## Tetris -/

/-- A 4×4 piece pattern (the entries of `tetris_current_piece`; nonzero means
an occupied cell, as the source tests the `int` entries for truthiness). -/
def TetrisPiece := Fin 4 → Fin 4 → ℕ

/-- Grid cell lookup `tetris_grid[y][x]` (nonzero = occupied).  Indexed by `ℤ`
because piece coordinates can go negative during wall kicks;
`tetris_can_place_piece` performs the source's bounds checks before any grid
cell is consulted. -/
def TetrisGrid := ℤ → ℤ → ℕ

/-- `tetris_can_place_piece(px, py, piece)`: every occupied piece cell must map
to `0 ≤ nx < GRID_W = 10`, `ny < GRID_H = 20`, and — when `ny ≥ 0` — onto an
empty grid cell. -/
def tetris_can_place_piece (g : TetrisGrid) (px py : ℤ) (piece : TetrisPiece) : Bool :=
  (List.finRange 4).all fun y => (List.finRange 4).all fun x =>
    if piece y x ≠ 0 then
      decide (0 ≤ px + (x.val : ℤ)) && decide (px + (x.val : ℤ) < 10) &&
        decide (py + (y.val : ℤ) < 20) &&
        (if 0 ≤ py + (y.val : ℤ) then decide (g (py + (y.val : ℤ)) (px + (x.val : ℤ)) = 0)
         else true)
    else true

/-- The rotation remap of `tetris_rotate_piece`: `temp[i][j] = piece[3-j][i]`. -/
def tetris_rotated (piece : TetrisPiece) : TetrisPiece :=
  fun i j => piece ⟨3 - j.val, by omega⟩ i

/-- The fixed wall-kick offset sequence `{{-1,0},{1,0},{-2,0},{2,0},{0,-1}}`. -/
def tetris_kick_offsets : List (ℤ × ℤ) := [(-1, 0), (1, 0), (-2, 0), (2, 0), (0, -1)]

/-- The kick loop of `tetris_rotate_piece`: try the offsets in order, adopt the
rotated shape at the first placeable kicked position; fall through with the
original piece and position if none is placeable. -/
def tetris_try_kicks (g : TetrisGrid) (temp piece : TetrisPiece) (px py : ℤ) :
    List (ℤ × ℤ) → TetrisPiece × ℤ × ℤ
  | [] => (piece, px, py)
  | k :: ks =>
    if tetris_can_place_piece g (px + k.1) (py + k.2) temp then (temp, px + k.1, py + k.2)
    else tetris_try_kicks g temp piece px py ks

/-- `tetris_rotate_piece()`, acting on the piece shape and position. -/
def tetris_rotate_piece (g : TetrisGrid) (piece : TetrisPiece) (px py : ℤ) :
    TetrisPiece × ℤ × ℤ :=
  let temp := tetris_rotated piece
  if tetris_can_place_piece g px py temp then (temp, px, py)
  else tetris_try_kicks g temp piece px py tetris_kick_offsets

/-- The rotation behaviour in the spec's words: the counter-clockwise remap is
accepted at the current position if placeable, otherwise exactly the wall-kick
offsets are tried in order taking the *first* placeable one, and if none is
placeable both shape and position stay completely unchanged.  (Stated from the
spec, to be compared with `tetris_rotate_piece`.) -/
def tetris_rotate_piece_as_specified (g : TetrisGrid) (piece : TetrisPiece) (px py : ℤ) :
    TetrisPiece × ℤ × ℤ :=
  let temp := tetris_rotated piece
  if tetris_can_place_piece g px py temp then (temp, px, py)
  else
    match tetris_kick_offsets.find?
        (fun k => tetris_can_place_piece g (px + k.1) (py + k.2) temp) with
    | some k => (temp, px + k.1, py + k.2)
    | none => (piece, px, py)

/-- The seven fixed piece shapes `tetris_pieces`. -/
def tetris_pieces_table : List (List (List ℕ)) :=
  [[[0,1,0,0],[0,1,0,0],[0,1,0,0],[0,1,0,0]],
   [[1,1,0,0],[1,1,0,0],[0,0,0,0],[0,0,0,0]],
   [[0,1,1,0],[1,1,0,0],[0,0,0,0],[0,0,0,0]],
   [[1,1,0,0],[0,1,1,0],[0,0,0,0],[0,0,0,0]],
   [[1,1,1,0],[0,1,0,0],[0,0,0,0],[0,0,0,0]],
   [[1,0,0,0],[1,0,0,0],[1,1,0,0],[0,0,0,0]],
   [[0,1,0,0],[0,1,0,0],[1,1,0,0],[0,0,0,0]]]

/-- The shape copied out of `tetris_pieces[t]`. -/
def tetris_piece_of (t : ℕ) : TetrisPiece :=
  fun y x => ((tetris_pieces_table.getD t []).getD y.val []).getD x.val 0

/-- A completely occupied grid (used to exercise the no-valid-rotation path). -/
def tetris_full_grid : TetrisGrid := fun _ _ => 1

/-- A row is full when every cell is nonzero (the inner loop of
`tetris_clear_lines`). -/
def tetris_row_full (r : List ℕ) : Bool := r.all fun c => decide (c ≠ 0)

/-- An empty row of `GRID_W = 10` cells. -/
def tetris_zero_row : List ℕ := List.replicate 10 0

/-- The bottom-up sweep of `tetris_clear_lines`, on the rows listed
bottom-to-top.  A full bottom row is removed — the rows above shift down one
(the remainder is processed in place, re-checking the same index) and a zero
row enters at the top; a non-full bottom row is kept.  Returns the processed
rows (still bottom-to-top) and the number of cleared rows. -/
def tetris_clear_sweep : List (List ℕ) → List (List ℕ) × ℕ
  | [] => ([], 0)
  | r :: rest =>
    if tetris_row_full r then
      let p := tetris_clear_sweep rest
      (p.1 ++ [tetris_zero_row], p.2 + 1)
    else
      let p := tetris_clear_sweep rest
      (r :: p.1, p.2)

/-- The grid part of `tetris_clear_lines()` on rows listed top-to-bottom. -/
def tetris_clear_lines_grid (rows : List (List ℕ)) : List (List ℕ) × ℕ :=
  let p := tetris_clear_sweep rows.reverse
  (p.1.reverse, p.2)

/-- The score / speed bookkeeping state of the Tetris module (`high_score` is
the slot `high_scores[1]`, carried along untouched by the line clear). -/
structure TetrisScore where
  score : ℤ
  lines_cleared : ℤ
  drop_speed : ℤ
  high_score : ℤ

/-- `tetris_clear_lines()`: clear full rows, then
`tetris_lines_cleared += lines; game_score += lines * 100;` and every time the
cumulative counter reaches 10 the drop interval shrinks by 50 ms (floored at
100 ms) and the counter resets. -/
def tetris_clear_lines (rows : List (List ℕ)) (st : TetrisScore) :
    List (List ℕ) × TetrisScore :=
  let p := tetris_clear_lines_grid rows
  let lines : ℤ := p.2
  if lines > 0 then
    let lc := st.lines_cleared + lines
    if lc ≥ 10 then
      (p.1, { score := st.score + lines * 100, lines_cleared := 0,
              drop_speed := max 100 (st.drop_speed - 50), high_score := st.high_score })
    else
      (p.1, { score := st.score + lines * 100, lines_cleared := lc,
              drop_speed := st.drop_speed, high_score := st.high_score })
  else (p.1, st)

/-! ## Snake -/

/-- The Snake module state.  The two fixed 100-slot coordinate arrays are
modelled as total functions (slots at and beyond `snake_length` keep their
stale contents, exactly as the C arrays do); `high_score` is the slot
`high_scores[2]`; `rng_state` is the PRNG state used by food placement. -/
structure SnakeState where
  snake_x : ℕ → ℤ
  snake_y : ℕ → ℤ
  snake_length : ℕ
  snake_dir : ℕ
  food_x : ℤ
  food_y : ℤ
  snake_last_move : ℕ
  snake_speed : ℤ
  score : ℤ
  high_score : ℤ
  game_over : Bool
  rng_state : ℕ

/-- `snake_check_collision(x, y)`: wall test against the 20×30 grid, then a
scan of all `snake_length` segments. -/
def snake_check_collision (s : SnakeState) (x y : ℤ) : Bool :=
  if x < 0 ∨ 20 ≤ x ∨ y < 0 ∨ 30 ≤ y then true
  else (List.range s.snake_length).any fun i =>
    decide (s.snake_x i = x) && decide (s.snake_y i = y)

/-- One food sample: `snake_food_x = rng(SNAKE_GRID_W); snake_food_y = rng(SNAKE_GRID_H);`. -/
def snake_food_sample (s : SnakeState) : SnakeState :=
  let r1 := rng 20 s.rng_state
  let r2 := rng 30 r1.2
  { s with food_x := r1.1, food_y := r2.1, rng_state := r2.2 }

/-- The food-relocation rejection loop of `update_snake`:
`do { food = (rng(20), rng(30)); } while (snake_check_collision(food));`
with explicit fuel; `none` when no acceptable cell was sampled in `fuel`
iterations (the C loop would still be spinning). -/
def snake_place_food : ℕ → SnakeState → Option SnakeState
  | 0, _ => none
  | fuel + 1, s =>
    let s' := snake_food_sample s
    if snake_check_collision s' s'.food_x s'.food_y then snake_place_food fuel s'
    else some s'

/-- The head displacement of the direction switch in `update_snake`
(0 = right, 1 = down, 2 = left, 3 = up). -/
def snake_delta (dir : ℕ) : ℤ × ℤ :=
  if dir = 0 then (1, 0)
  else if dir = 1 then (0, 1)
  else if dir = 2 then (-1, 0)
  else if dir = 3 then (0, -1)
  else (0, 0)

/-- `update_snake()` at time `now`: cadence gate, head advance, collision /
game-over test, food handling (growth, speed-up, relocation), body shift.
`none` only when the food relocation loop exhausted its fuel. -/
def update_snake (now fuel : ℕ) (s : SnakeState) : Option SnakeState :=
  if s.game_over then some s
  else if (↑(now - s.snake_last_move) : ℤ) < s.snake_speed then some s
  else
    let s := { s with snake_last_move := now }
    let d := snake_delta s.snake_dir
    let new_x := s.snake_x 0 + d.1
    let new_y := s.snake_y 0 + d.2
    if snake_check_collision s new_x new_y then
      some { s with game_over := true,
                    high_score := if s.score > s.high_score then s.score else s.high_score }
    else
      let ate : Bool := decide (new_x = s.food_x) && decide (new_y = s.food_y)
      let fed : Option SnakeState :=
        if ate then
          snake_place_food fuel
            { s with score := s.score + 10, snake_length := s.snake_length + 1,
                     snake_speed := max 100 (s.snake_speed - 5) }
        else some s
      match fed with
      | none => none
      | some t =>
        let t' := { t with
          snake_x := fun i =>
            if i = 0 then new_x else if i < t.snake_length then t.snake_x (i - 1)
            else t.snake_x i,
          snake_y := fun i =>
            if i = 0 then new_y else if i < t.snake_length then t.snake_y (i - 1)
            else t.snake_y i }
        some (if !ate && decide (0 < t'.snake_length) then
                { t' with snake_length := t'.snake_length - 1 + 1 }
              else t')

/-- One food sample of `init_snake`: `(rng(2,18), rng(2,28))`. -/
def init_snake_food_sample (s : SnakeState) : SnakeState :=
  let r1 := rng2 2 18 s.rng_state
  let r2 := rng2 2 28 r1.2
  { s with food_x := r1.1, food_y := r2.1, rng_state := r2.2 }

/-- The food loop of `init_snake`:
`do { food = (rng(2,18), rng(2,28)); } while ((food == head) && in_bounds)`. -/
def init_snake_food : ℕ → SnakeState → Option SnakeState
  | 0, _ => none
  | fuel + 1, s =>
    let s' := init_snake_food_sample s
    if (s'.food_x = s'.snake_x 0 ∧ s'.food_y = s'.snake_y 0) ∧
        s'.food_x < 20 ∧ s'.food_y < 30 then
      init_snake_food fuel s'
    else some s'

/-- `init_snake()` at time `now`: fresh score/flags, a length-4 body headed at
`(max(4, 10), max(4, 15)) = (10, 15)` pointing right, speed 300, then the food
placement loop. -/
def init_snake (fuel now : ℕ) (s : SnakeState) : Option SnakeState :=
  init_snake_food fuel
    { s with score := 0, game_over := false, snake_length := 4, snake_dir := 0,
             snake_speed := 300, snake_last_move := now,
             snake_x := fun i => if i < 4 then 10 - (i : ℤ) else s.snake_x i,
             snake_y := fun i => if i < 4 then 15 else s.snake_y i }

/-- The touch-to-direction quantisation of the in-game Snake branch of
`handle_touch`: left third → 2 (left), right third → 0 (right), else upper
half → 3 (up), lower half → 1 (down); thresholds are the integer divisions
`368/3 = 122`, `368*2/3 = 245`, `448/2 = 224`. -/
def snake_dir_of_touch (tx ty : ℕ) : ℕ :=
  if tx < 368 / 3 then 2
  else if tx > 368 * 2 / 3 then 0
  else if ty < 448 / 2 then 3
  else 1

/-- The Snake branch of `handle_touch`: while `game_over` any touch re-runs
`init_snake`, otherwise the direction variable is overwritten with the touch
zone's direction — there is no reversal guard. -/
def snake_handle_touch (tx ty fuel now : ℕ) (s : SnakeState) : Option SnakeState :=
  if s.game_over then init_snake fuel now s
  else some { s with snake_dir := snake_dir_of_touch tx ty }

/-- The exact opposite of a travel direction (the claim's notion; not a
source function). -/
def snake_opposite (d : ℕ) : ℕ :=
  if d = 0 then 2 else if d = 1 then 3 else if d = 2 then 0 else 1

/-- Concrete Snake state for the food-relocation counterexample: a
straight length-2 snake at `(5,5)–(4,5)` moving right, food directly ahead
at `(6,5)`, PRNG state 113 (whose next two draws are exactly `6 mod 20` and
`5 mod 30`). -/
def snake_cex_state : SnakeState :=
  { snake_x := fun i => if i = 0 then 5 else if i = 1 then 4 else 0,
    snake_y := fun i => if i = 0 then 5 else if i = 1 then 5 else 0,
    snake_length := 2, snake_dir := 0, food_x := 6, food_y := 5,
    snake_last_move := 0, snake_speed := 300, score := 0, high_score := 0,
    game_over := false, rng_state := 113 }

/-! ## Breakout -/

/-- The Breakout module state.  `float` quantities are modelled over `ℚ`
(the literal `1.2f` becomes `12/10`); `bricks` is the 6×8 liveness array and
`high_score` the slot `high_scores[3]`. -/
structure BreakoutState where
  bricks : Fin 6 → Fin 8 → Bool
  ball_x : ℚ
  ball_y : ℚ
  ball_dx : ℚ
  ball_dy : ℚ
  paddle_x : ℚ
  bricks_remaining : ℤ
  score : ℤ
  high_score : ℤ
  game_over : Bool

/-- `init_breakout()`: score and terminal flag cleared, every brick alive
(48 remaining), ball at `(WIDTH/2, 300) = (184, 300)` with velocity `(2, −3)`,
paddle centred at `(368 − 60)/2 = 154`.  The high score is untouched. -/
def init_breakout (s : BreakoutState) : BreakoutState :=
  { s with score := 0, game_over := false,
           bricks := fun _ _ => true, bricks_remaining := 48,
           ball_x := 184, ball_y := 300, ball_dx := 2, ball_dy := -3,
           paddle_x := 154 }

/-- The brick-overlap test of `update_breakout` for the brick at
`(row, col)`: the brick rectangle starts at `x = col * (368 / 8) = 46·col`,
`y = 50 + 12·row` and spans `BRICK_W = 25` by `BRICK_H = 12`; the ball has
radius 4. -/
def breakout_brick_hit (bx ny : ℚ) (row col : ℕ) : Bool :=
  decide ((46 * col : ℚ) ≤ bx + 4) && decide (bx - 4 ≤ 46 * col + 25) &&
    decide ((50 + 12 * row : ℚ) ≤ ny + 4) && decide (ny - 4 ≤ 50 + 12 * row + 12)

/-- The inner column scan of the brick loop: the first still-alive brick of
the row that overlaps the ball (the source `continue`s past dead bricks and
`break`s after the first hit). -/
def breakout_find_hit (s : BreakoutState) (row : Fin 6) : Option (Fin 8) :=
  (List.finRange 8).find? fun col =>
    s.bricks row col && breakout_brick_hit s.ball_x s.ball_y row.val col.val

/-- Processing one brick hit: kill the brick, decrement the counter, add 10
to the score, flip the vertical velocity; when the counter reaches zero,
`init_breakout()` runs and both velocity components are scaled by `1.2`. -/
def breakout_process_hit (row : Fin 6) (col : Fin 8) (s : BreakoutState) : BreakoutState :=
  let s1 := { s with
    bricks := fun r c => if r = row ∧ c = col then false else s.bricks r c,
    bricks_remaining := s.bricks_remaining - 1,
    score := s.score + 10,
    ball_dy := -s.ball_dy }
  if s1.bricks_remaining = 0 then
    let s2 := init_breakout s1
    { s2 with ball_dx := s2.ball_dx * (12/10), ball_dy := s2.ball_dy * (12/10) }
  else s1

/-- The row loop of the brick-collision phase: each row contributes at most
its first hit brick (inner `break`), and the loop keeps running over the
remaining rows on the updated state — also after a mid-loop board reset. -/
def breakout_brick_loop : List (Fin 6) → BreakoutState → BreakoutState
  | [], s => s
  | row :: rest, s =>
    match breakout_find_hit s row with
    | none => breakout_brick_loop rest s
    | some col => breakout_brick_loop rest (breakout_process_hit row col s)

/-- `update_breakout()`: move the ball, reflect off the side walls
(`x ≤ 4 ∨ x ≥ 364`) and the top (`y ≤ 4`), end the game at the bottom
(`y ≥ 444`, recording the high score), bounce off the paddle (vertical
velocity forced upward, horizontal velocity `(hit_pos − 0.5) · 4`), then run
the brick loop. -/
def update_breakout (s : BreakoutState) : BreakoutState :=
  if s.game_over then s
  else
    let bx := s.ball_x + s.ball_dx
    let ny := s.ball_y + s.ball_dy
    let dx1 := if bx ≤ 4 ∨ 364 ≤ bx then -s.ball_dx else s.ball_dx
    let dy1 := if ny ≤ 4 then -s.ball_dy else s.ball_dy
    if 444 ≤ ny then
      { s with ball_x := bx, ball_y := ny, ball_dx := dx1, ball_dy := dy1,
               game_over := true,
               high_score := if s.score > s.high_score then s.score else s.high_score }
    else
      let hit_paddle := decide ((400 : ℚ) ≤ ny + 4) && decide (ny - 4 ≤ 408) &&
        decide (s.paddle_x ≤ bx) && decide (bx ≤ s.paddle_x + 60)
      let dy2 := if hit_paddle then -|dy1| else dy1
      let dx2 := if hit_paddle then ((bx - s.paddle_x) / 60 - 1/2) * 4 else dx1
      breakout_brick_loop (List.finRange 6)
        { s with ball_x := bx, ball_y := ny, ball_dx := dx2, ball_dy := dy2 }

/-- The state produced by a level clear: `init_breakout` followed by the
`1.2×` velocity scaling, so the ball restarts at `(184, 300)` with velocity
`(2 · 1.2, −3 · 1.2) = (12/5, −18/5)` whatever the previous speed was. -/
def breakout_reset_state (high : ℤ) : BreakoutState :=
  { bricks := fun _ _ => true, ball_x := 184, ball_y := 300,
    ball_dx := 12/5, ball_dy := -18/5, paddle_x := 154,
    bricks_remaining := 48, score := 0, high_score := high, game_over := false }

/-- Concrete Breakout state for the level-clear counterexample: a single
brick left at row 0, column 3, and the ball — already travelling at the
post-reset speed `(12/5, −18/5)` — about to destroy it. -/
def breakout_cex_state : BreakoutState :=
  { bricks := fun r c => decide (r.val = 0 ∧ c.val = 3),
    ball_x := 150, ball_y := 68, ball_dx := 12/5, ball_dy := -18/5,
    paddle_x := 154, bricks_remaining := 1, score := 470, high_score := 0,
    game_over := false }

/-- Concrete Breakout state realising the spec's paddle scenario: ball at
`(184, 398)` with velocity `(1, 3)`, paddle spanning `154..214`. -/
def breakout_paddle_state : BreakoutState :=
  { bricks := fun _ _ => true,
    ball_x := 184, ball_y := 398, ball_dx := 1, ball_dy := 3,
    paddle_x := 154, bricks_remaining := 48, score := 0, high_score := 0,
    game_over := false }

/-! ## Tetris piece spawning -/

/-- The per-game state touched by `tetris_spawn_new_piece` (`high_score` is
the slot `high_scores[1]`). -/
structure TetrisState where
  grid : TetrisGrid
  current_type : ℕ
  next_type : ℕ
  piece : TetrisPiece
  piece_x : ℤ
  piece_y : ℤ
  score : ℤ
  high_score : ℤ
  game_over : Bool
  rng_state : ℕ

/-- `tetris_spawn_new_piece()`: promote the lookahead piece, draw a fresh
`rng(7)` lookahead, place the new piece at `(3, 0)`, and flag game over
(recording the high score) when the spawn position is immediately invalid. -/
def tetris_spawn_new_piece (st : TetrisState) : TetrisState :=
  let current := st.next_type
  let r := rng 7 st.rng_state
  let piece := tetris_piece_of current
  let st' := { st with current_type := current, next_type := r.1.toNat, piece := piece,
                       piece_x := 3, piece_y := 0, rng_state := r.2 }
  if tetris_can_place_piece st.grid 3 0 piece then st'
  else { st' with game_over := true,
                  high_score := if st.score > st.high_score then st.score else st.high_score }

/-- A concrete spawn state whose grid is completely occupied, so the spawned
piece cannot be placed and the game ends. -/
def tetris_spawn_blocked_state : TetrisState :=
  { grid := tetris_full_grid, current_type := 0, next_type := 0,
    piece := tetris_piece_of 0, piece_x := 3, piece_y := 0,
    score := 500, high_score := 0, game_over := false, rng_state := 1 }

/-! ## Asteroids -/

/-- One pooled asteroid (`struct Asteroid`). -/
structure Asteroid where
  x : ℚ
  y : ℚ
  dx : ℚ
  dy : ℚ
  angle : ℚ
  spin : ℚ
  size : ℤ
  active : Bool

/-- One pooled bullet (`struct Bullet`). -/
structure AstBullet where
  x : ℚ
  y : ℚ
  dx : ℚ
  dy : ℚ
  active : Bool
  fired_time : ℕ

/-- The Asteroids module state (`high_score` is the slot `high_scores[0]`). -/
structure AsteroidsState where
  asteroids : Fin 15 → Asteroid
  bullets : Fin 5 → AstBullet
  ship_x : ℚ
  ship_y : ℚ
  ship_angle : ℚ
  ship_dx : ℚ
  ship_dy : ℚ
  ship_alive : Bool
  score : ℤ
  high_score : ℤ
  game_over : Bool
  rng_state : ℕ

/-- The collision radius used for an asteroid of a given size:
`size 2 → 20, size 1 → 12, otherwise 6`. -/
def asteroid_radius (size : ℤ) : ℚ :=
  if size = 2 then 20 else if size = 1 then 12 else 6

/-- One child placement of the split loop, writing into the free slot `i`:
`asteroids[i] = asteroids[a]` (reading the *current* slot `a`), then size
`old_size − 1`, position `old ± rng(−10,10)`, velocity
`−asteroids[a] + rng(100)/100` (again reading the current slot `a`, which may
already be slot `i` itself), and the liveness flag.  Returns the pool and the
advanced PRNG state. -/
def asteroid_child_step (a i : Fin 15) (osz : ℤ) (ox oy : ℚ)
    (pool : Fin 15 → Asteroid) (r : ℕ) : (Fin 15 → Asteroid) × ℕ :=
  let rx := rng2 (-10) 10 r
  let ry := rng2 (-10) 10 rx.2
  let pool1 := Function.update pool i
    { pool a with size := osz - 1, x := ox + rx.1, y := oy + ry.1 }
  let rdx := rng 100 ry.2
  let rdy := rng 100 rdx.2
  (Function.update pool1 i
    { pool1 i with dx := -(pool1 a).dx + (rdx.1 : ℚ) / 100,
                   dy := -(pool1 a).dy + (rdy.1 : ℚ) / 100, active := true }, rdy.2)

/-- The split loop of the bullet-collision handler
(`for(int i = 0; i < 15 && split_count < 2; i++)`): scan the pool slots in
order while fewer than two children have been placed, placing a child into
every free slot encountered.  Returns the pool, the number of children
placed, and the PRNG state. -/
def asteroid_place_children (a : Fin 15) (osz : ℤ) (ox oy : ℚ) :
    List (Fin 15) → ℕ → (Fin 15 → Asteroid) → ℕ → (Fin 15 → Asteroid) × ℕ × ℕ
  | [], count, pool, r => (pool, count, r)
  | i :: rest, count, pool, r =>
    if count < 2 then
      if (pool i).active = false then
        asteroid_place_children a osz ox oy rest (count + 1)
          (asteroid_child_step a i osz ox oy pool r).1
          (asteroid_child_step a i osz ox oy pool r).2
      else asteroid_place_children a osz ox oy rest count pool r
    else (pool, count, r)

/-- The body of the bullet-asteroid collision handler in `update_asteroids`
(run when `dist < radius`): deactivate the bullet, remember the asteroid's
size and position, deactivate the asteroid, add `(old_size + 1) · 10` to the
score, and split a non-minimum asteroid into up to two children. -/
def update_asteroids_bullet_hit (b : Fin 5) (a : Fin 15) (s : AsteroidsState) :
    AsteroidsState :=
  let osz := (s.asteroids a).size
  let ox := (s.asteroids a).x
  let oy := (s.asteroids a).y
  let bullets' := Function.update s.bullets b { s.bullets b with active := false }
  let pool0 := Function.update s.asteroids a { s.asteroids a with active := false }
  if 0 < osz then
    let p := asteroid_place_children a osz ox oy (List.finRange 15) 0 pool0 s.rng_state
    { s with bullets := bullets', asteroids := p.1,
             score := s.score + (osz + 1) * 10, rng_state := p.2.2 }
  else
    { s with bullets := bullets', asteroids := pool0,
             score := s.score + (osz + 1) * 10 }

/-- The ship-asteroid collision scan of `update_asteroids`: the first active
asteroid within `radius + 10` of the ship kills the ship, ends the game and
records the high score (the loop then `break`s). -/
def update_asteroids_ship_check : List (Fin 15) → AsteroidsState → AsteroidsState
  | [], s => s
  | a :: rest, s =>
    if (s.asteroids a).active &&
        decide ((s.ship_x - (s.asteroids a).x) ^ 2 + (s.ship_y - (s.asteroids a).y) ^ 2
          < (asteroid_radius (s.asteroids a).size + 10) ^ 2) then
      { s with ship_alive := false, game_over := true,
               high_score := if s.score > s.high_score then s.score else s.high_score }
    else update_asteroids_ship_check rest s

/-- One freshly seeded asteroid of `init_asteroids`: size 2, position
`(rng(50,318), rng(50,430))`, velocity `(rng(0,100)/50 − 1, rng(0,100)/50 − 1)`,
angle `rng(0,360)`, spin `rng(0,100)/100 − 0.5`. -/
def init_asteroid_slot (r : ℕ) : Asteroid × ℕ :=
  let r1 := rng2 50 318 r
  let r2 := rng2 50 430 r1.2
  let r3 := rng2 0 100 r2.2
  let r4 := rng2 0 100 r3.2
  let r5 := rng2 0 360 r4.2
  let r6 := rng2 0 100 r5.2
  ({ x := (r1.1 : ℚ), y := (r2.1 : ℚ), dx := (r3.1 : ℚ) / 50 - 1, dy := (r4.1 : ℚ) / 50 - 1,
     angle := (r5.1 : ℚ), spin := (r6.1 : ℚ) / 100 - 1/2, size := 2, active := true }, r6.2)

/-- The seeding loop of `init_asteroids` over the first `num` pool slots. -/
def init_asteroids_loop : List (Fin 15) → (Fin 15 → Asteroid) → ℕ → (Fin 15 → Asteroid) × ℕ
  | [], pool, r => (pool, r)
  | i :: rest, pool, r =>
    let p := init_asteroid_slot r
    init_asteroids_loop rest (Function.update pool i p.1) p.2

/-- `init_asteroids()`: reset score and flags, re-centre the ship, clear both
pools, then seed `min(3 + level, 10)` size-2 asteroids.  The high score is
untouched. -/
def init_asteroids (level : ℤ) (s : AsteroidsState) : AsteroidsState :=
  let base : AsteroidsState :=
    { s with score := 0, game_over := false,
             ship_x := 184, ship_y := 260, ship_angle := -90,
             ship_dx := 0, ship_dy := 0, ship_alive := true,
             bullets := fun b => { s.bullets b with active := false },
             asteroids := fun i => { s.asteroids i with active := false } }
  let p := init_asteroids_loop ((List.finRange 15).take (min (3 + level) 10).toNat)
    base.asteroids s.rng_state
  { base with asteroids := p.1, rng_state := p.2 }

/-- Number of active asteroids in the pool. -/
def ast_active_count (pool : Fin 15 → Asteroid) : ℕ :=
  ((List.finRange 15).filter fun i => (pool i).active).length

/-- Concrete Asteroids state realising the spec's splitting scenario: a single
size-2 asteroid at `(100, 100)` and an active bullet 5 units away. -/
def ast_cex_state : AsteroidsState :=
  { asteroids := fun i =>
      if i = 0 then
        { x := 100, y := 100, dx := 1, dy := 0, angle := 0, spin := 0,
          size := 2, active := true }
      else
        { x := 0, y := 0, dx := 0, dy := 0, angle := 0, spin := 0,
          size := 0, active := false },
    bullets := fun b =>
      if b = 0 then
        { x := 100, y := 95, dx := 0, dy := 5, active := true, fired_time := 0 }
      else
        { x := 0, y := 0, dx := 0, dy := 0, active := false, fired_time := 0 },
    ship_x := 184, ship_y := 260, ship_angle := -90, ship_dx := 0, ship_dy := 0,
    ship_alive := true, score := 0, high_score := 0, game_over := false,
    rng_state := 7 }

/-! ## High-score update policy -/

/-- The only admissible change to a `high_scores` slot across one operation:
either the slot is untouched, or the operation is the one that flips
`game_over` from false to true while the current score strictly exceeds the
stored high score, in which case the slot becomes the score. -/
def high_score_update_ok (go go' : Bool) (score hs hs' : ℤ) : Prop :=
  hs' = hs ∨ (go = false ∧ go' = true ∧ hs < score ∧ hs' = score)

/-! # Theorems -/

theorem tetris_try_kicks_eq_find (g : TetrisGrid) (temp piece : TetrisPiece)
    (px py : ℤ) (ks : List (ℤ × ℤ)) :
    tetris_try_kicks g temp piece px py ks =
      match ks.find? (fun k => tetris_can_place_piece g (px + k.1) (py + k.2) temp) with
      | some k => (temp, px + k.1, py + k.2)
      | none => (piece, px, py) := by
  induction ks with
  | nil => rfl
  | cons k ks ih =>
    rw [tetris_try_kicks, List.find?_cons]
    cases h : tetris_can_place_piece g (px + k.1) (py + k.2) temp <;> simp [h, ih]

theorem tetris_clear_sweep_spec (l : List (List ℕ)) :
    tetris_clear_sweep l =
      (l.filter (fun r => !tetris_row_full r) ++
        List.replicate (l.filter tetris_row_full).length tetris_zero_row,
       (l.filter tetris_row_full).length) := by
  induction l with
  | nil => rfl
  | cons r rest ih =>
    by_cases h : tetris_row_full r = true <;>
      simp [tetris_clear_sweep, h, ih, List.filter_cons, List.replicate_succ']

theorem pet_apply_in_range (a : PetAction) (p : Tamagotchi)
    (h : pet_stats_in_range p) : pet_stats_in_range (pet_apply a p) := by
  obtain ⟨h1, h2, h3, h4, h5, h6, h7, h8⟩ := h
  cases a <;>
    simp only [pet_apply, pet_feed, pet_play, pet_clean, pet_medicine, pet_decay,
      pet_stats_in_range] <;>
    (try split_ifs) <;>
    omega

/-- C1: for every seed the PRNG is deterministic (identical runs from equal
seeds), follows the recurrence `state = (state * 1103515245 + 12345) mod 2^31`
with `result = min + state mod (max - min)`, and for `max > min` every output
satisfies `min ≤ x < max`. -/
theorem rng_deterministic_and_in_range (min_val max_val : ℤ) (s : ℕ)
    (h : min_val < max_val) :
    (∀ qs : List (ℤ × ℤ), ∀ s₂ : ℕ, s₂ = s → rng_run s qs = rng_run s₂ qs) ∧
    rng_step s = (s * 1103515245 + 12345) % 2 ^ 31 ∧
    (rng2 min_val max_val s).1 = min_val + (rng_step s : ℤ) % (max_val - min_val) ∧
    (rng2 min_val max_val s).2 = rng_step s ∧
    min_val ≤ (rng2 min_val max_val s).1 ∧ (rng2 min_val max_val s).1 < max_val := by
  have hpos : (0 : ℤ) < max_val - min_val := by omega
  refine ⟨fun qs s₂ hs => by rw [hs], rfl, rfl, rfl, ?_, ?_⟩
  · have := Int.emod_nonneg (rng_step s : ℤ) (by omega : (max_val - min_val) ≠ 0)
    simp only [rng2, rng]
    omega
  · have := Int.emod_lt_of_pos (rng_step s : ℤ) hpos
    simp only [rng2, rng]
    omega

/-- Witness for C1 at the spec's Scenario 1: seed 42, range `[0, 7)`. -/
theorem rng_deterministic_and_in_range_witness :
    0 ≤ (rng2 0 7 42).1 ∧ (rng2 0 7 42).1 < 7 :=
  ⟨(rng_deterministic_and_in_range 0 7 42 (by decide)).2.2.2.2.1,
   (rng_deterministic_and_in_range 0 7 42 (by decide)).2.2.2.2.2⟩

/-- C2: all four pet stats remain within `[0, 100]` after any sequence of
feed/play/clean/medicine touch actions and 30-second decay ticks, starting
from any state whose stats are in range. -/
theorem pet_stats_stay_in_range (acts : List PetAction) (p : Tamagotchi)
    (h : pet_stats_in_range p) : pet_stats_in_range (pet_run acts p) := by
  induction acts generalizing p with
  | nil => exact h
  | cons a acts ih => exact ih _ (pet_apply_in_range a p h)

/-- Witness for C2: the freshly initialised pet, fed, played with, decayed
twice and medicated, stays in range. -/
theorem pet_stats_stay_in_range_witness :
    pet_stats_in_range
      (pet_run [.feed, .play, .decay, .decay, .medicine] init_pet) :=
  pet_stats_stay_in_range _ init_pet (by decide)

/-- C3: `tetris_rotate_piece` computes the counter-clockwise remap
`temp[i][j] = piece[3-j][i]`, accepts it at the current position if placeable,
otherwise takes the first placeable offset of the fixed wall-kick sequence, and
when nothing is placeable leaves both the piece shape and its position
completely unchanged. -/
theorem tetris_rotate_piece_correct (g : TetrisGrid) (piece : TetrisPiece) (px py : ℤ) :
    tetris_rotate_piece g piece px py = tetris_rotate_piece_as_specified g piece px py ∧
    (∀ i j : Fin 4, tetris_rotated piece i j = piece ⟨3 - j.val, by omega⟩ i) ∧
    ((tetris_can_place_piece g px py (tetris_rotated piece) = false ∧
        ∀ k ∈ tetris_kick_offsets,
          tetris_can_place_piece g (px + k.1) (py + k.2) (tetris_rotated piece) = false) →
      tetris_rotate_piece g piece px py = (piece, px, py)) := by
  refine ⟨?_, fun i j => rfl, ?_⟩
  · rw [tetris_rotate_piece, tetris_rotate_piece_as_specified, tetris_try_kicks_eq_find]
  · rintro ⟨h0, hk⟩
    rw [tetris_rotate_piece, tetris_try_kicks_eq_find]
    have : tetris_kick_offsets.find?
        (fun k => tetris_can_place_piece g (px + k.1) (py + k.2) (tetris_rotated piece))
        = none := by
      rw [List.find?_eq_none]
      intro k hmem
      simp [hk k hmem]
    simp [h0, this]

/-- Witness for C3: on a completely occupied grid no rotation placement is
valid, and the I-piece at the spawn position is left entirely unchanged. -/
theorem tetris_rotate_piece_correct_witness :
    tetris_rotate_piece tetris_full_grid (tetris_piece_of 0) 3 0 =
      (tetris_piece_of 0, 3, 0) :=
  (tetris_rotate_piece_correct tetris_full_grid (tetris_piece_of 0) 3 0).2.2
    ⟨by decide, by decide⟩

/-- C6: one `tetris_clear_lines` step removes exactly the full rows (the rows
above shift down, preserving the relative order of the remaining rows, with
empty rows entering at the top), adds exactly `100 ×` the number of cleared
rows to the score, and once the cumulative cleared-line counter reaches 10 it
resets and the drop interval shrinks by 50 ms floored at 100 ms. -/
theorem tetris_clear_lines_correct (rows : List (List ℕ)) (st : TetrisScore) :
    tetris_clear_lines rows st =
      (List.replicate (rows.filter tetris_row_full).length tetris_zero_row ++
        rows.filter (fun r => !tetris_row_full r),
       if 0 < (rows.filter tetris_row_full).length then
         if 10 ≤ st.lines_cleared + (rows.filter tetris_row_full).length then
           { score := st.score + (rows.filter tetris_row_full).length * 100,
             lines_cleared := 0,
             drop_speed := max 100 (st.drop_speed - 50), high_score := st.high_score }
         else
           { score := st.score + (rows.filter tetris_row_full).length * 100,
             lines_cleared := st.lines_cleared + (rows.filter tetris_row_full).length,
             drop_speed := st.drop_speed, high_score := st.high_score }
       else st) := by
  have hgrid : tetris_clear_lines_grid rows =
      (List.replicate (rows.filter tetris_row_full).length tetris_zero_row ++
        rows.filter (fun r => !tetris_row_full r),
       (rows.filter tetris_row_full).length) := by
    rw [tetris_clear_lines_grid, tetris_clear_sweep_spec]
    simp [List.filter_reverse, List.reverse_append]
  rw [tetris_clear_lines, hgrid]
  rcases Nat.eq_zero_or_pos (rows.filter tetris_row_full).length with h | h
  · simp [h]
  · have h1 : (0 : ℤ) < ((rows.filter tetris_row_full).length : ℤ) := by exact_mod_cast h
    simp only [h1, if_pos, h]
    by_cases h2 : (10 : ℤ) ≤ st.lines_cleared + (rows.filter tetris_row_full).length <;>
      simp [h2, h1, not_lt.mpr, if_pos, if_neg]

theorem snake_check_collision_false_iff (s : SnakeState) (x y : ℤ) :
    snake_check_collision s x y = false ↔
      (0 ≤ x ∧ x < 20 ∧ 0 ≤ y ∧ y < 30) ∧
      ∀ i < s.snake_length, ¬(s.snake_x i = x ∧ s.snake_y i = y) := by
  rw [snake_check_collision]
  by_cases hb : (x < 0 ∨ 20 ≤ x ∨ y < 0 ∨ 30 ≤ y)
  · simp only [hb, if_true]
    constructor
    · intro h; cases h
    · rintro ⟨⟨h1, h2, h3, h4⟩, -⟩; omega
  · simp only [hb, if_false, List.any_eq_false, List.mem_range]
    constructor
    · intro h
      refine ⟨by omega, fun i hi hcol => ?_⟩
      exact (h i hi) (by simp [hcol.1, hcol.2])
    · rintro ⟨-, h⟩ i hi hd
      simp only [Bool.and_eq_true, decide_eq_true_eq] at hd
      exact h i hi hd

theorem snake_place_food_spec (fuel : ℕ) (u t : SnakeState)
    (h : snake_place_food fuel u = some t) :
    t.snake_x = u.snake_x ∧ t.snake_y = u.snake_y ∧ t.snake_length = u.snake_length ∧
    t.snake_speed = u.snake_speed ∧ t.score = u.score ∧ t.game_over = u.game_over ∧
    t.high_score = u.high_score ∧ t.snake_last_move = u.snake_last_move ∧
    t.snake_dir = u.snake_dir ∧
    snake_check_collision t t.food_x t.food_y = false := by
  induction fuel generalizing u with
  | zero => simp [snake_place_food] at h
  | succ n ih =>
    rw [snake_place_food] at h
    split at h
    · exact ih (snake_food_sample u) h
    · next hc =>
        cases h
        exact ⟨rfl, rfl, rfl, rfl, rfl, rfl, rfl, rfl, rfl, by simpa using hc⟩

/-- C4 (amended): when the cell ahead of the head is the food cell and the
move does not collide, one cadence-due `update_snake` tick grows the snake by
exactly one segment, lowers the tick interval by 5 ms floored at 100 ms, and
relocates the food to an in-bounds cell that passes the rejection test against
the *pre-move* segment array (all slots below the already-incremented length,
including the stale one) — the food may therefore coincide with the cell the
head moves into, but with no other post-move segment. -/
theorem update_snake_eat_grows (now fuel : ℕ) (s s' : SnakeState)
    (hgo : s.game_over = false)
    (hcad : s.snake_speed ≤ (↑(now - s.snake_last_move) : ℤ))
    (hax : s.snake_x 0 + (snake_delta s.snake_dir).1 = s.food_x)
    (hay : s.snake_y 0 + (snake_delta s.snake_dir).2 = s.food_y)
    (hnocol : snake_check_collision s (s.snake_x 0 + (snake_delta s.snake_dir).1)
        (s.snake_y 0 + (snake_delta s.snake_dir).2) = false)
    (hup : update_snake now fuel s = some s') :
    s'.snake_length = s.snake_length + 1 ∧
    s'.snake_speed = max 100 (s.snake_speed - 5) ∧
    s'.score = s.score + 10 ∧
    (0 ≤ s'.food_x ∧ s'.food_x < 20 ∧ 0 ≤ s'.food_y ∧ s'.food_y < 30) ∧
    (∀ i < s.snake_length + 1, ¬(s.snake_x i = s'.food_x ∧ s.snake_y i = s'.food_y)) ∧
    (∀ i, 1 ≤ i → i < s'.snake_length →
      ¬(s'.snake_x i = s'.food_x ∧ s'.snake_y i = s'.food_y)) := by
  rw [update_snake] at hup
  rw [hgo] at hup
  simp only [Bool.false_eq_true, if_false, not_lt.mpr hcad, if_neg (not_lt.mpr hcad)] at hup
  have hcol2 : snake_check_collision { s with snake_last_move := now, game_over := false }
      (s.snake_x 0 + (snake_delta s.snake_dir).1)
      (s.snake_y 0 + (snake_delta s.snake_dir).2) = false := hnocol
  have hate : (decide (s.snake_x 0 + (snake_delta s.snake_dir).1 = s.food_x) &&
      decide (s.snake_y 0 + (snake_delta s.snake_dir).2 = s.food_y)) = true := by
    rw [hax, hay]; simp
  rw [hcol2, hate] at hup
  simp only [Bool.false_eq_true, if_false, if_true, Bool.not_true, Bool.false_and,
    Bool.and_eq_true] at hup
  cases hfed : snake_place_food fuel
      { s with snake_last_move := now, game_over := false, score := s.score + 10,
               snake_length := s.snake_length + 1,
               snake_speed := max 100 (s.snake_speed - 5) } with
  | none =>
      rw [hfed] at hup
      cases hup
  | some t =>
      rw [hfed] at hup
      obtain ⟨htx, hty, htl, hts, htsc, -, -, -, -, htfood⟩ :=
        snake_place_food_spec fuel _ t hfed
      simp only [Option.some.injEq] at hup
      subst hup
      rw [snake_check_collision_false_iff] at htfood
      obtain ⟨hbound, hnot⟩ := htfood
      refine ⟨htl, hts, htsc, hbound, ?_, ?_⟩
      · intro i hi
        have := hnot i (by rw [htl]; exact hi)
        rw [htx, hty] at this
        exact this
      · intro i h1 h2
        have hi0 : ¬ i = 0 := by omega
        have hlt : i < t.snake_length := by simpa using h2
        simp only [hi0, if_false, hlt, if_true]
        exact hnot (i - 1) (by rw [htl] at hlt ⊢; omega)

/-- Witness for C4 (amended) at the concrete eating state: the snake grows
from 2 to 3 segments and the tick interval drops from 300 ms to 295 ms. -/
theorem update_snake_eat_grows_witness :
    (update_snake 300 5 snake_cex_state).map SnakeState.snake_length = some 3 ∧
    (update_snake 300 5 snake_cex_state).map SnakeState.snake_speed = some 295 := by
  cases hup : update_snake 300 5 snake_cex_state with
  | none =>
      have hsome : (update_snake 300 5 snake_cex_state).isSome = true := by decide
      rw [hup] at hsome
      exact absurd hsome (by decide)
  | some s' =>
      have h := update_snake_eat_grows 300 5 snake_cex_state s' (by decide) (by decide)
        (by decide) (by decide) (by decide) hup
      constructor
      · simp only [Option.map_some', h.1]; decide
      · simp only [Option.map_some', h.2.1]; decide

/-- C4 counterexample: at `snake_cex_state` the tick eats the food ahead (all
premises of the claim hold: the cell ahead is the food cell and the move does
not collide), yet the relocated food lands exactly on the new head cell — so
the food is *not* on a cell unoccupied by the snake after the move completes. -/
theorem update_snake_food_on_new_head_cex :
    (update_snake 300 5 snake_cex_state).map
        (fun s' => decide (s'.food_x = s'.snake_x 0 ∧ s'.food_y = s'.snake_y 0))
      = some true ∧
    snake_cex_state.snake_x 0 + (snake_delta snake_cex_state.snake_dir).1
        = snake_cex_state.food_x ∧
    snake_cex_state.snake_y 0 + (snake_delta snake_cex_state.snake_dir).2
        = snake_cex_state.food_y ∧
    snake_check_collision snake_cex_state
        (snake_cex_state.snake_x 0 + (snake_delta snake_cex_state.snake_dir).1)
        (snake_cex_state.snake_y 0 + (snake_delta snake_cex_state.snake_dir).2)
      = false := by
  refine ⟨by decide, by decide, by decide, by decide⟩

/-- C10: a touch commanding the exact opposite of the current travel direction
is accepted verbatim (the direction variable is simply overwritten — no
reversal guard), and for a snake of length ≥ 2 whose second segment trails
the head the next due tick's head target coincides with that second segment,
so `update_snake` flags `game_over` on that very tick. -/
theorem snake_reversal_accepted_and_fatal
    (s : SnakeState) (tx ty now fuel : ℕ)
    (hgo : s.game_over = false)
    (hlen : 2 ≤ s.snake_length)
    (hdir : s.snake_dir < 4)
    (hx1 : s.snake_x 1 = s.snake_x 0 - (snake_delta s.snake_dir).1)
    (hy1 : s.snake_y 1 = s.snake_y 0 - (snake_delta s.snake_dir).2)
    (htouch : snake_dir_of_touch tx ty = snake_opposite s.snake_dir)
    (hcad : s.snake_speed ≤ (↑(now - s.snake_last_move) : ℤ)) :
    snake_handle_touch tx ty fuel now s
        = some { s with snake_dir := snake_opposite s.snake_dir } ∧
    s.snake_x 0 + (snake_delta (snake_opposite s.snake_dir)).1 = s.snake_x 1 ∧
    s.snake_y 0 + (snake_delta (snake_opposite s.snake_dir)).2 = s.snake_y 1 ∧
    (update_snake now fuel { s with snake_dir := snake_opposite s.snake_dir }).map
        SnakeState.game_over = some true := by
  have hd1 : s.snake_x 0 + (snake_delta (snake_opposite s.snake_dir)).1 = s.snake_x 1 ∧
      s.snake_y 0 + (snake_delta (snake_opposite s.snake_dir)).2 = s.snake_y 1 := by
    have h4 : s.snake_dir = 0 ∨ s.snake_dir = 1 ∨ s.snake_dir = 2 ∨ s.snake_dir = 3 := by
      omega
    rcases h4 with h | h | h | h <;>
      rw [h] at hx1 hy1 ⊢ <;>
      simp only [snake_opposite, snake_delta, if_true, if_false] at hx1 hy1 ⊢ <;>
      norm_num at hx1 hy1 ⊢ <;>
      omega
  have hgo2 : ({ s with snake_dir := snake_opposite s.snake_dir } : SnakeState).game_over
      = false := hgo
  have hcad2 : ¬ ((↑(now - ({ s with snake_dir := snake_opposite s.snake_dir }
      : SnakeState).snake_last_move) : ℤ)
        < ({ s with snake_dir := snake_opposite s.snake_dir } : SnakeState).snake_speed) :=
    not_lt.mpr hcad
  have hcol : snake_check_collision
      { s with snake_dir := snake_opposite s.snake_dir, snake_last_move := now }
      (s.snake_x 0 + (snake_delta (snake_opposite s.snake_dir)).1)
      (s.snake_y 0 + (snake_delta (snake_opposite s.snake_dir)).2) = true := by
    rw [snake_check_collision]
    split
    · rfl
    · rw [List.any_eq_true]
      refine ⟨1, List.mem_range.mpr (show 1 < s.snake_length by omega), ?_⟩
      simp [hd1.1, hd1.2]
  refine ⟨by rw [snake_handle_touch]; simp [hgo, htouch], hd1.1, hd1.2, ?_⟩
  rw [update_snake]
  rw [hgo2]
  simp only [Bool.false_eq_true, if_false, if_neg hcad2]
  split
  · simp
  · next hcolF => exact absurd hcol hcolF

/-- Witness for C10 at the concrete length-2 rightward snake: after the
reversing touch, the next due tick ends the game. -/
theorem snake_reversal_accepted_and_fatal_witness :
    (update_snake 300 5 { snake_cex_state with
        snake_dir := snake_opposite snake_cex_state.snake_dir }).map SnakeState.game_over
      = some true :=
  (snake_reversal_accepted_and_fatal snake_cex_state 10 0 300 5 (by decide) (by decide)
    (by decide) (by decide) (by decide) (by decide) (by decide)).2.2.2

theorem find_first_of_unique {α : Type} (p : α → Bool) (c0 : α) (l : List α)
    (hmem : c0 ∈ l) (hp : p c0 = true) (huniq : ∀ b ∈ l, p b = true → b = c0) :
    l.find? p = some c0 := by
  induction l with
  | nil => cases hmem
  | cons x xs ih =>
    cases hpx : p x
    · have hxc : c0 ∈ xs := by
        rcases List.mem_cons.mp hmem with h | h
        · rw [← h] at hpx; rw [hp] at hpx; cases hpx
        · exact h
      rw [List.find?_cons_of_neg _ (by simp [hpx]), ih hxc
        (fun b hb => huniq b (List.mem_cons_of_mem x hb))]
    · rw [List.find?_cons_of_pos _ hpx, huniq x (List.mem_cons_self x xs) hpx]

theorem breakout_brick_loop_no_hit (rows : List (Fin 6)) (s : BreakoutState)
    (h : 126 < s.ball_y) : breakout_brick_loop rows s = s := by
  induction rows with
  | nil => rfl
  | cons row rest ih =>
    rw [breakout_brick_loop]
    have hfind : breakout_find_hit s row = none := by
      rw [breakout_find_hit, List.find?_eq_none]
      intro col _
      simp only [Bool.and_eq_true, not_and]
      intro _ hhit
      rw [breakout_brick_hit] at hhit
      simp only [Bool.and_eq_true, decide_eq_true_eq] at hhit
      obtain ⟨⟨⟨-, -⟩, -⟩, hy⟩ := hhit
      have hrow : (row.val : ℚ) ≤ 5 := by exact_mod_cast Nat.lt_succ_iff.mp row.isLt
      linarith
    simp only [hfind]
    exact ih

theorem breakout_brick_loop_single (rows : List (Fin 6)) (s : BreakoutState)
    (r0 : Fin 6) (c0 : Fin 8)
    (hone : ∀ r c, s.bricks r c = true ↔ (r = r0 ∧ c = c0))
    (hrem : s.bricks_remaining = 1)
    (hhit : breakout_brick_hit s.ball_x s.ball_y r0.val c0.val = true)
    (hmem : r0 ∈ rows) :
    breakout_brick_loop rows s = breakout_reset_state s.high_score := by
  induction rows with
  | nil => cases hmem
  | cons row rest ih =>
    rw [breakout_brick_loop]
    by_cases hr : row = r0
    · subst hr
      have hfind : breakout_find_hit s row = some c0 := by
        rw [breakout_find_hit]
        apply find_first_of_unique _ c0 _ (List.mem_finRange c0)
        · simp [(hone row c0).mpr ⟨rfl, rfl⟩, hhit]
        · intro b _ hb
          simp only [Bool.and_eq_true] at hb
          exact ((hone row b).mp hb.1).2
      simp only [hfind]
      have hproc : breakout_process_hit row c0 s = breakout_reset_state s.high_score := by
        rw [breakout_process_hit]
        simp only [hrem]
        norm_num [init_breakout, breakout_reset_state]
      rw [hproc]
      exact breakout_brick_loop_no_hit rest _ (by norm_num [breakout_reset_state])
    · have hfind : breakout_find_hit s row = none := by
        rw [breakout_find_hit, List.find?_eq_none]
        intro c _
        simp only [Bool.and_eq_true, not_and]
        intro hb
        exact fun _ => hr ((hone row c).mp hb).1
      simp only [hfind]
      exact ih (by
        rcases List.mem_cons.mp hmem with h | h
        · exact absurd h.symm hr
        · exact h)

theorem breakout_level_clear_eq (s : BreakoutState) (r0 : Fin 6) (c0 : Fin 8)
    (hgo : s.game_over = false)
    (hone : ∀ r c, s.bricks r c = true ↔ (r = r0 ∧ c = c0))
    (hrem : s.bricks_remaining = 1)
    (hhit : breakout_brick_hit (s.ball_x + s.ball_dx) (s.ball_y + s.ball_dy) r0.val c0.val
      = true) :
    update_breakout s = breakout_reset_state s.high_score := by
  have hrow5 : (r0.val : ℚ) ≤ 5 := by exact_mod_cast Nat.lt_succ_iff.mp r0.isLt
  have hhit' := hhit
  rw [breakout_brick_hit] at hhit'
  simp only [Bool.and_eq_true, decide_eq_true_eq] at hhit'
  obtain ⟨⟨⟨-, -⟩, -⟩, h4⟩ := hhit'
  have hnb : ¬ ((444 : ℚ) ≤ s.ball_y + s.ball_dy) := by linarith
  have hpadF : (decide ((400 : ℚ) ≤ s.ball_y + s.ball_dy + 4) &&
      decide (s.ball_y + s.ball_dy - 4 ≤ 408) &&
      decide (s.paddle_x ≤ s.ball_x + s.ball_dx) &&
      decide (s.ball_x + s.ball_dx ≤ s.paddle_x + 60)) = false := by
    have hlow : ¬ ((400 : ℚ) ≤ s.ball_y + s.ball_dy + 4) := by linarith
    simp [hlow]
  rw [update_breakout, hgo]
  simp only [Bool.false_eq_true, if_false, if_neg hnb, hpadF]
  exact breakout_brick_loop_single (List.finRange 6) _ r0 c0 hone hrem hhit
    (List.mem_finRange r0)

theorem breakout_cex_hhit :
    breakout_brick_hit (breakout_cex_state.ball_x + breakout_cex_state.ball_dx)
      (breakout_cex_state.ball_y + breakout_cex_state.ball_dy) 0 3 = true := by
  rw [breakout_brick_hit]
  simp only [Bool.and_eq_true, decide_eq_true_eq]
  refine ⟨⟨⟨?_, ?_⟩, ?_⟩, ?_⟩ <;> norm_num [breakout_cex_state]

/-- C5 (amended): whenever the last remaining brick is destroyed the board is
fully reset — all 48 bricks restored, ball and paddle repositioned — and the
ball velocity becomes exactly `(2 · 1.2, −3 · 1.2) = (12/5, −18/5)`: the 1.2×
multiplier is applied to the velocity that `init_breakout` has just reset, not
to the pre-clear velocity, so every clear restarts at the same fixed speed
magnitude `(1.2)·√13`; this is strictly greater than the level-1 starting
speed but NOT strictly greater than the speed immediately before the reset in
general. -/
theorem update_breakout_level_clear_resets (s : BreakoutState) (r0 : Fin 6) (c0 : Fin 8)
    (hgo : s.game_over = false)
    (hone : ∀ r c, s.bricks r c = true ↔ (r = r0 ∧ c = c0))
    (hrem : s.bricks_remaining = 1)
    (hhit : breakout_brick_hit (s.ball_x + s.ball_dx) (s.ball_y + s.ball_dy) r0.val c0.val
      = true) :
    update_breakout s = breakout_reset_state s.high_score ∧
    (∀ r c, (update_breakout s).bricks r c = true) ∧
    (update_breakout s).ball_dx ^ 2 + (update_breakout s).ball_dy ^ 2 = 468 / 25 := by
  have h := breakout_level_clear_eq s r0 c0 hgo hone hrem hhit
  refine ⟨h, ?_, ?_⟩ <;> rw [h] <;> norm_num [breakout_reset_state]

/-- Witness for C5 (amended): destroying the single remaining brick of
`breakout_cex_state` yields exactly the reset board. -/
theorem update_breakout_level_clear_resets_witness :
    update_breakout breakout_cex_state = breakout_reset_state 0 :=
  (update_breakout_level_clear_resets breakout_cex_state ⟨0, by norm_num⟩ ⟨3, by norm_num⟩
    rfl (by decide) rfl breakout_cex_hhit).1

/-- C5 counterexample: a level clear whose pre-reset speed already equals the
post-reset one.  At `breakout_cex_state` the last brick is destroyed
(remaining 1 → full board of 48), yet the resulting speed magnitude equals —
is not strictly greater than — the magnitude immediately before the reset. -/
theorem update_breakout_speed_not_increased_cex :
    breakout_cex_state.bricks_remaining = 1 ∧
    (update_breakout breakout_cex_state).bricks_remaining = 48 ∧
    (update_breakout breakout_cex_state).ball_dx ^ 2 +
        (update_breakout breakout_cex_state).ball_dy ^ 2 =
      breakout_cex_state.ball_dx ^ 2 + breakout_cex_state.ball_dy ^ 2 := by
  have h := breakout_level_clear_eq breakout_cex_state ⟨0, by norm_num⟩ ⟨3, by norm_num⟩
    rfl (by decide) rfl breakout_cex_hhit
  refine ⟨rfl, ?_, ?_⟩ <;> rw [h] <;> norm_num [breakout_reset_state, breakout_cex_state]

/-- C8: immediately after a paddle collision (post-move ball overlapping the
paddle rectangle) the vertical velocity is forced upward — negative whenever
the incoming vertical component is nonzero, regardless of its sign — and the
horizontal velocity becomes `(hit_fraction − 0.5) · 4` where the strike
fraction `hit_fraction = (ball_x − paddle_x)/60` lies in `[0, 1]`. -/
theorem update_breakout_paddle_bounce (s : BreakoutState)
    (hgo : s.game_over = false)
    (hp1 : (400 : ℚ) ≤ s.ball_y + s.ball_dy + 4)
    (hp2 : s.ball_y + s.ball_dy - 4 ≤ 408)
    (hp3 : s.paddle_x ≤ s.ball_x + s.ball_dx)
    (hp4 : s.ball_x + s.ball_dx ≤ s.paddle_x + 60) :
    (update_breakout s).ball_dy = -|s.ball_dy| ∧
    (s.ball_dy ≠ 0 → (update_breakout s).ball_dy < 0) ∧
    (update_breakout s).ball_dx =
      ((s.ball_x + s.ball_dx - s.paddle_x) / 60 - 1/2) * 4 ∧
    0 ≤ (s.ball_x + s.ball_dx - s.paddle_x) / 60 ∧
    (s.ball_x + s.ball_dx - s.paddle_x) / 60 ≤ 1 := by
  have hnb : ¬ ((444 : ℚ) ≤ s.ball_y + s.ball_dy) := by linarith
  have htop : ¬ (s.ball_y + s.ball_dy ≤ 4) := by linarith
  have hpad : (decide ((400 : ℚ) ≤ s.ball_y + s.ball_dy + 4) &&
      decide (s.ball_y + s.ball_dy - 4 ≤ 408) &&
      decide (s.paddle_x ≤ s.ball_x + s.ball_dx) &&
      decide (s.ball_x + s.ball_dx ≤ s.paddle_x + 60)) = true := by
    simp [hp1, hp2, hp3, hp4]
  rw [update_breakout, hgo]
  simp only [Bool.false_eq_true, if_false, if_neg hnb, hpad, if_true, if_neg htop]
  rw [breakout_brick_loop_no_hit _ _ (show (126 : ℚ) < s.ball_y + s.ball_dy by linarith)]
  refine ⟨rfl, ?_, rfl, ?_, ?_⟩
  · intro hdy
    have : 0 < |s.ball_dy| := abs_pos.mpr hdy
    show -|s.ball_dy| < 0
    linarith
  · exact div_nonneg (by linarith) (by norm_num)
  · exact (div_le_one (by norm_num)).mpr (by linarith)

/-- Witness for C8 at the spec's paddle scenario (ball `(184, 398)` moving
`(1, 3)`, paddle spanning `154..214`): the resulting vertical velocity is
negative and the horizontal velocity is `((31/60) − 0.5) · 4 = 1/15`. -/
theorem update_breakout_paddle_bounce_witness :
    (update_breakout breakout_paddle_state).ball_dy < 0 ∧
    (update_breakout breakout_paddle_state).ball_dx = 1/15 := by
  have h := update_breakout_paddle_bounce breakout_paddle_state rfl
    (by norm_num [breakout_paddle_state]) (by norm_num [breakout_paddle_state])
    (by norm_num [breakout_paddle_state]) (by norm_num [breakout_paddle_state])
  refine ⟨h.2.1 (by norm_num [breakout_paddle_state]), ?_⟩
  rw [h.2.2.1]
  norm_num [breakout_paddle_state]

theorem rng2_bounds (min_val max_val : ℤ) (s : ℕ) (h : min_val < max_val) :
    min_val ≤ (rng2 min_val max_val s).1 ∧ (rng2 min_val max_val s).1 < max_val := by
  constructor
  · have := Int.emod_nonneg ((rng_step s : ℤ)) (by omega : max_val - min_val ≠ 0)
    simp only [rng2, rng]
    omega
  · have := Int.emod_lt_of_pos ((rng_step s : ℤ)) (by omega : (0 : ℤ) < max_val - min_val)
    simp only [rng2, rng]
    omega

theorem length_filter_bool_split {α : Type} (l : List α) (p : α → Bool) :
    (l.filter p).length + (l.filter fun x => !p x).length = l.length := by
  induction l with
  | nil => rfl
  | cons x xs ih =>
    cases hx : p x <;> simp [List.filter_cons, hx] <;> omega

theorem filter_length_update_point {α : Type} (l : List α) (p q : α → Bool)
    (i : α) (hl : l.Nodup) (hi : i ∈ l) (hne : ∀ j, j ≠ i → q j = p j) :
    (l.filter q).length + (if p i then 1 else 0) =
      (l.filter p).length + (if q i then 1 else 0) := by
  induction l with
  | nil => cases hi
  | cons x xs ih =>
    rw [List.nodup_cons] at hl
    by_cases hx : x = i
    · subst hx
      have hqp : xs.filter q = xs.filter p :=
        List.filter_congr fun j hj => hne j (fun hji => hl.1 (hji ▸ hj))
      cases hq : q x <;> cases hp : p x <;>
        simp [List.filter_cons, hq, hp, hqp]
    · have hi' : i ∈ xs := by
        rcases List.mem_cons.mp hi with hh | hh
        · exact absurd hh.symm hx
        · exact hh
      have := ih hl.2 hi'
      cases hp : p x <;> simp [List.filter_cons, hne x hx, hp] at this ⊢ <;> omega

theorem asteroid_child_step_noteq (a i j : Fin 15) (osz : ℤ) (ox oy : ℚ)
    (pool : Fin 15 → Asteroid) (r : ℕ) (hj : j ≠ i) :
    (asteroid_child_step a i osz ox oy pool r).1 j = pool j := by
  simp [asteroid_child_step, Function.update_noteq hj]

theorem asteroid_child_step_eq (a i : Fin 15) (osz : ℤ) (ox oy : ℚ)
    (pool : Fin 15 → Asteroid) (r : ℕ) :
    ((asteroid_child_step a i osz ox oy pool r).1 i).active = true ∧
    ((asteroid_child_step a i osz ox oy pool r).1 i).size = osz - 1 ∧
    ((asteroid_child_step a i osz ox oy pool r).1 i).x = ox + ((rng2 (-10) 10 r).1 : ℚ) ∧
    ((asteroid_child_step a i osz ox oy pool r).1 i).y
      = oy + ((rng2 (-10) 10 (rng2 (-10) 10 r).2).1 : ℚ) := by
  simp [asteroid_child_step, Function.update_same]

theorem rng2_offset_abs (z : ℚ) (r : ℕ) : |z + ((rng2 (-10) 10 r).1 : ℚ) - z| ≤ 10 := by
  obtain ⟨h1, h2⟩ := rng2_bounds (-10) 10 r (by omega)
  have heq : z + ((rng2 (-10) 10 r).1 : ℚ) - z = ((rng2 (-10) 10 r).1 : ℚ) := by ring
  rw [heq, abs_le]
  constructor
  · exact_mod_cast h1
  · exact_mod_cast (by omega : (rng2 (-10) 10 r).1 ≤ 10)

theorem asteroid_place_children_spec (a : Fin 15) (osz : ℤ) (ox oy : ℚ)
    (l : List (Fin 15)) :
    ∀ (count : ℕ) (pool : Fin 15 → Asteroid) (r : ℕ), l.Nodup → count ≤ 2 →
      (∀ j, j ∉ l → (asteroid_place_children a osz ox oy l count pool r).1 j = pool j) ∧
      (asteroid_place_children a osz ox oy l count pool r).2.1 =
        min 2 (count + (l.filter fun j => !(pool j).active).length) ∧
      ast_active_count (asteroid_place_children a osz ox oy l count pool r).1 + count =
        ast_active_count pool + (asteroid_place_children a osz ox oy l count pool r).2.1 ∧
      (∀ j, (asteroid_place_children a osz ox oy l count pool r).1 j ≠ pool j →
        (pool j).active = false ∧
        ((asteroid_place_children a osz ox oy l count pool r).1 j).active = true ∧
        ((asteroid_place_children a osz ox oy l count pool r).1 j).size = osz - 1 ∧
        |((asteroid_place_children a osz ox oy l count pool r).1 j).x - ox| ≤ 10 ∧
        |((asteroid_place_children a osz ox oy l count pool r).1 j).y - oy| ≤ 10) := by
  induction l with
  | nil =>
    intro count pool r _ hc
    refine ⟨fun j _ => rfl, ?_, ?_, fun j hj => absurd rfl hj⟩
    · simp only [asteroid_place_children, List.filter_nil, List.length_nil, Nat.add_zero]
      omega
    · rfl
  | cons i rest ih =>
    intro count pool r hnd hc
    rw [List.nodup_cons] at hnd
    by_cases hcnt : count < 2
    · by_cases hfree : (pool i).active = false
      · -- a child is placed into the free slot `i`, then the scan continues
        have hstep : asteroid_place_children a osz ox oy (i :: rest) count pool r =
            asteroid_place_children a osz ox oy rest (count + 1)
              (asteroid_child_step a i osz ox oy pool r).1
              (asteroid_child_step a i osz ox oy pool r).2 := by
          rw [asteroid_place_children]
          simp [hcnt, hfree]
        obtain ⟨ihA, ihB, ihC, ihD⟩ := ih (count + 1)
          (asteroid_child_step a i osz ox oy pool r).1
          (asteroid_child_step a i osz ox oy pool r).2 hnd.2 (by omega)
        obtain ⟨hcs_act, hcs_size, hcs_x, hcs_y⟩ := asteroid_child_step_eq a i osz ox oy pool r
        have hdiff : ∀ j, j ≠ i →
            (asteroid_child_step a i osz ox oy pool r).1 j = pool j :=
          fun j hj => asteroid_child_step_noteq a i j osz ox oy pool r hj
        have hcount : ast_active_count (asteroid_child_step a i osz ox oy pool r).1 =
            ast_active_count pool + 1 := by
          have hpt := filter_length_update_point (List.finRange 15)
            (fun j => (pool j).active)
            (fun j => ((asteroid_child_step a i osz ox oy pool r).1 j).active)
            i (List.nodup_finRange 15) (List.mem_finRange i)
            (fun j hj => by simp only [hdiff j hj])
          simp only [hfree, hcs_act, Bool.false_eq_true, if_false, if_true] at hpt
          unfold ast_active_count
          omega
        have hrest_filter : (rest.filter fun j =>
            !((asteroid_child_step a i osz ox oy pool r).1 j).active) =
            rest.filter fun j => !(pool j).active := by
          refine List.filter_congr fun j hj => ?_
          rw [hdiff j (fun hji => hnd.1 (hji ▸ hj))]
        refine ⟨?_, ?_, ?_, ?_⟩
        · intro j hj
          have h1 : j ∉ rest := fun h => hj (List.mem_cons_of_mem i h)
          have h2 : j ≠ i := fun hji => hj (hji ▸ List.mem_cons_self i rest)
          rw [hstep, ihA j h1]
          exact hdiff j h2
        · rw [hstep, ihB, hrest_filter, List.filter_cons]
          simp only [hfree, Bool.not_false, if_true, List.length_cons]
          omega
        · rw [hstep]
          rw [hcount] at ihC
          omega
        · intro j hj
          rw [hstep] at hj ⊢
          by_cases hji : j = i
          · subst hji
            have hres_j : (asteroid_place_children a osz ox oy rest (count + 1)
                (asteroid_child_step a j osz ox oy pool r).1
                (asteroid_child_step a j osz ox oy pool r).2).1 j =
                (asteroid_child_step a j osz ox oy pool r).1 j :=
              ihA j hnd.1
            rw [hres_j, hcs_x, hcs_y]
            exact ⟨hfree, hcs_act, hcs_size, rng2_offset_abs ox r,
              rng2_offset_abs oy (rng2 (-10) 10 r).2⟩
          · have hcj := hdiff j hji
            rw [← hcj] at hj
            obtain ⟨d1, d2, d3, d4, d5⟩ := ihD j hj
            rw [hcj] at d1
            exact ⟨d1, d2, d3, d4, d5⟩
      · -- slot `i` is occupied: skip it
        have hocc : (pool i).active = true := by
          revert hfree
          cases (pool i).active <;> simp
        have hstep : asteroid_place_children a osz ox oy (i :: rest) count pool r =
            asteroid_place_children a osz ox oy rest count pool r := by
          rw [asteroid_place_children]
          simp [hcnt, hfree]
        obtain ⟨ihA, ihB, ihC, ihD⟩ := ih count pool r hnd.2 hc
        refine ⟨?_, ?_, ?_, ?_⟩
        · intro j hj
          rw [hstep]
          exact ihA j (fun h => hj (List.mem_cons_of_mem i h))
        · rw [hstep, ihB, List.filter_cons]
          simp [hocc]
        · rw [hstep]
          exact ihC
        · intro j hj
          rw [hstep] at hj ⊢
          exact ihD j hj
    · -- the two-children budget is already spent: the loop stops
      have hstep : asteroid_place_children a osz ox oy (i :: rest) count pool r
          = (pool, count, r) := by
        rw [asteroid_place_children]
        simp [hcnt]
      rw [hstep]
      refine ⟨fun j _ => rfl, ?_, ?_, fun j hj => absurd rfl hj⟩
      · show count = min 2 (count + _)
        omega
      · show ast_active_count pool + count = ast_active_count pool + count
        rfl

/-- C7: processing a bullet-asteroid collision (distance below the asteroid's
radius, stated on squares) deactivates the bullet, adds exactly
`(old_size + 1) × 10` to the score; when `old_size = 0` the pool changes only
by the hit slot becoming inactive (zero children), and when `old_size > 0`
exactly `min 2 (free slots)` children — two, or fewer only when the pool lacks
free slots — become active, each of size `old_size − 1` and within ±10 of the
old position. -/
theorem update_asteroids_bullet_hit_correct (b : Fin 5) (a : Fin 15) (s : AsteroidsState)
    (hact : (s.asteroids a).active = true)
    (hdist : ((s.bullets b).x - (s.asteroids a).x) ^ 2 +
        ((s.bullets b).y - (s.asteroids a).y) ^ 2
      < asteroid_radius (s.asteroids a).size ^ 2) :
    ((update_asteroids_bullet_hit b a s).bullets b).active = false ∧
    (update_asteroids_bullet_hit b a s).score
      = s.score + ((s.asteroids a).size + 1) * 10 ∧
    (¬ 0 < (s.asteroids a).size →
      (update_asteroids_bullet_hit b a s).asteroids
        = Function.update s.asteroids a { s.asteroids a with active := false }) ∧
    (0 < (s.asteroids a).size →
      ast_active_count (update_asteroids_bullet_hit b a s).asteroids + 1 =
        ast_active_count s.asteroids + min 2 (16 - ast_active_count s.asteroids) ∧
      (∀ j, ((update_asteroids_bullet_hit b a s).asteroids j).active = true →
        (j = a ∨ (s.asteroids j).active = false) →
        ((update_asteroids_bullet_hit b a s).asteroids j).size
            = (s.asteroids a).size - 1 ∧
        |((update_asteroids_bullet_hit b a s).asteroids j).x - (s.asteroids a).x| ≤ 10 ∧
        |((update_asteroids_bullet_hit b a s).asteroids j).y - (s.asteroids a).y| ≤ 10)) := by
  have hchar : update_asteroids_bullet_hit b a s =
      if 0 < (s.asteroids a).size then
        { s with
          bullets := Function.update s.bullets b { s.bullets b with active := false },
          asteroids := (asteroid_place_children a (s.asteroids a).size (s.asteroids a).x
            (s.asteroids a).y (List.finRange 15) 0
            (Function.update s.asteroids a { s.asteroids a with active := false })
            s.rng_state).1,
          score := s.score + ((s.asteroids a).size + 1) * 10,
          rng_state := (asteroid_place_children a (s.asteroids a).size (s.asteroids a).x
            (s.asteroids a).y (List.finRange 15) 0
            (Function.update s.asteroids a { s.asteroids a with active := false })
            s.rng_state).2.2 }
      else
        { s with
          bullets := Function.update s.bullets b { s.bullets b with active := false },
          asteroids := Function.update s.asteroids a { s.asteroids a with active := false },
          score := s.score + ((s.asteroids a).size + 1) * 10 } := rfl
  have hq : ∀ j, j ≠ a →
      ((Function.update s.asteroids a { s.asteroids a with active := false }) j).active
        = (s.asteroids j).active :=
    fun j hj => by rw [Function.update_noteq hj]
  have hq_a : ((Function.update s.asteroids a
      { s.asteroids a with active := false }) a).active = false := by
    rw [Function.update_same]
  have hcount0 : ast_active_count
        (Function.update s.asteroids a { s.asteroids a with active := false }) + 1
      = ast_active_count s.asteroids := by
    have hpt := filter_length_update_point (List.finRange 15)
      (fun j => (s.asteroids j).active)
      (fun j => ((Function.update s.asteroids a
        { s.asteroids a with active := false }) j).active) a
      (List.nodup_finRange 15) (List.mem_finRange a) (fun j hj => by simp only [hq j hj])
    simp [hact, hq_a] at hpt
    unfold ast_active_count
    exact hpt
  refine ⟨?_, ?_, ?_, ?_⟩
  · rw [hchar]
    split <;> simp [Function.update_same]
  · rw [hchar]
    split <;> rfl
  · intro hsz
    rw [hchar, if_neg hsz]
  · intro hsz
    have hast : (update_asteroids_bullet_hit b a s).asteroids =
        (asteroid_place_children a (s.asteroids a).size (s.asteroids a).x
          (s.asteroids a).y (List.finRange 15) 0
          (Function.update s.asteroids a { s.asteroids a with active := false })
          s.rng_state).1 := by
      rw [hchar, if_pos hsz]
    rw [hast]
    obtain ⟨spA, spB, spC, spD⟩ := asteroid_place_children_spec a (s.asteroids a).size
      (s.asteroids a).x (s.asteroids a).y (List.finRange 15) 0
      (Function.update s.asteroids a { s.asteroids a with active := false })
      s.rng_state (List.nodup_finRange 15) (by omega)
    have hsplit : ((List.finRange 15).filter fun j =>
          ((Function.update s.asteroids a
            { s.asteroids a with active := false }) j).active).length +
        ((List.finRange 15).filter fun j => !((Function.update s.asteroids a
          { s.asteroids a with active := false }) j).active).length = 15 := by
      simpa using length_filter_bool_split (List.finRange 15)
        (fun j => ((Function.update s.asteroids a
          { s.asteroids a with active := false }) j).active)
    have hle : ((List.finRange 15).filter fun i => (s.asteroids i).active).length ≤ 15 := by
      simpa using List.length_filter_le (fun i => (s.asteroids i).active) (List.finRange 15)
    constructor
    · unfold ast_active_count at spC hcount0 ⊢
      omega
    · intro j hactive hfree
      have hp0j : ((Function.update s.asteroids a
          { s.asteroids a with active := false }) j).active = false := by
        by_cases hja : j = a
        · subst hja
          exact hq_a
        · rw [hq j hja]
          rcases hfree with h | h
          · exact absurd h hja
          · exact h
      have hne : (asteroid_place_children a (s.asteroids a).size (s.asteroids a).x
          (s.asteroids a).y (List.finRange 15) 0
          (Function.update s.asteroids a { s.asteroids a with active := false })
          s.rng_state).1 j
          ≠ (Function.update s.asteroids a { s.asteroids a with active := false }) j := by
        intro heq
        rw [heq, hp0j] at hactive
        cases hactive
      obtain ⟨-, -, d3, d4, d5⟩ := spD j hne
      exact ⟨d3, d4, d5⟩

/-- Witness for C7 at the spec's Scenario 5: the bullet destroys the single
size-2 asteroid, the score rises by exactly 30, and — the whole pool being
free — exactly two size-1 children are activated (pool count 1 → 2). -/
theorem update_asteroids_bullet_hit_correct_witness :
    (update_asteroids_bullet_hit 0 0 ast_cex_state).score = 30 ∧
    ast_active_count (update_asteroids_bullet_hit 0 0 ast_cex_state).asteroids = 2 := by
  have h := update_asteroids_bullet_hit_correct 0 0 ast_cex_state rfl
    (by norm_num [ast_cex_state, asteroid_radius])
  have hsz : 0 < (ast_cex_state.asteroids 0).size := by decide
  have hc := (h.2.2.2 hsz).1
  have h1 : ast_active_count ast_cex_state.asteroids = 1 := by decide
  constructor
  · rw [h.2.1]
    decide
  · rw [h1] at hc
    omega

theorem init_snake_food_high (fuel : ℕ) (u t : SnakeState)
    (h : init_snake_food fuel u = some t) : t.high_score = u.high_score := by
  induction fuel generalizing u with
  | zero => simp [init_snake_food] at h
  | succ n ih =>
    rw [init_snake_food] at h
    split at h
    · exact ih (init_snake_food_sample u) h
    · cases h
      rfl

theorem update_snake_high (now fuel : ℕ) (s s' : SnakeState)
    (hup : update_snake now fuel s = some s') :
    high_score_update_ok s.game_over s'.game_over s.score s.high_score s'.high_score := by
  rw [update_snake] at hup
  by_cases hgo : s.game_over = true
  · rw [if_pos hgo] at hup
    cases hup
    exact Or.inl rfl
  · have hgo' : s.game_over = false := by simpa using hgo
    rw [if_neg hgo] at hup
    split at hup
    · cases hup
      exact Or.inl rfl
    · simp only [] at hup
      split at hup
      · cases hup
        by_cases hsc : s.score > s.high_score
        · exact Or.inr ⟨hgo', rfl, hsc, if_pos hsc⟩
        · exact Or.inl (if_neg hsc)
      · split at hup
        · cases hup
        · next t heq =>
            cases hup
            have ht : t.high_score = s.high_score := by
              split at heq
              · exact (snake_place_food_spec _ _ t heq).2.2.2.2.2.2.1
              · cases heq
                rfl
            refine Or.inl ?_
            split <;> exact ht

theorem update_snake_touch_high (tx ty fuel now : ℕ) (s s' : SnakeState)
    (hup : snake_handle_touch tx ty fuel now s = some s') :
    s'.high_score = s.high_score := by
  rw [snake_handle_touch] at hup
  split at hup
  · rw [init_snake] at hup
    have hh := init_snake_food_high fuel _ s' hup
    exact hh
  · cases hup
    rfl

theorem breakout_process_hit_high (row : Fin 6) (col : Fin 8) (s : BreakoutState) :
    (breakout_process_hit row col s).high_score = s.high_score := by
  rw [breakout_process_hit]
  split <;> rfl

theorem breakout_brick_loop_high (rows : List (Fin 6)) (s : BreakoutState) :
    (breakout_brick_loop rows s).high_score = s.high_score := by
  induction rows generalizing s with
  | nil => rfl
  | cons row rest ih =>
    rw [breakout_brick_loop]
    cases hfind : breakout_find_hit s row
    · simp only [hfind]
      exact ih s
    · simp only [hfind]
      rw [ih _, breakout_process_hit_high]

theorem update_breakout_high (s : BreakoutState) :
    high_score_update_ok s.game_over (update_breakout s).game_over
      s.score s.high_score (update_breakout s).high_score := by
  rw [update_breakout]
  by_cases hgo : s.game_over = true
  · rw [if_pos hgo]
    exact Or.inl rfl
  · have hgo' : s.game_over = false := by simpa using hgo
    rw [if_neg hgo]
    simp only []
    split
    · by_cases hsc : s.score > s.high_score
      · exact Or.inr ⟨hgo', rfl, hsc, if_pos hsc⟩
      · exact Or.inl (if_neg hsc)
    · refine Or.inl ?_
      rw [breakout_brick_loop_high]

theorem tetris_spawn_high (st : TetrisState) (hgo : st.game_over = false) :
    high_score_update_ok st.game_over (tetris_spawn_new_piece st).game_over
      st.score st.high_score (tetris_spawn_new_piece st).high_score := by
  rw [tetris_spawn_new_piece]
  split
  · exact Or.inl rfl
  · by_cases hsc : st.score > st.high_score
    · exact Or.inr ⟨hgo, rfl, hsc, if_pos hsc⟩
    · exact Or.inl (if_neg hsc)

theorem update_asteroids_ship_check_high (l : List (Fin 15)) :
    ∀ s : AsteroidsState, s.game_over = false →
      high_score_update_ok s.game_over (update_asteroids_ship_check l s).game_over
        s.score s.high_score (update_asteroids_ship_check l s).high_score := by
  induction l with
  | nil =>
    intro s _
    exact Or.inl rfl
  | cons a rest ih =>
    intro s hgo
    rw [update_asteroids_ship_check]
    split
    · by_cases hsc : s.score > s.high_score
      · exact Or.inr ⟨hgo, rfl, hsc, if_pos hsc⟩
      · exact Or.inl (if_neg hsc)
    · exact ih s hgo

/-- C9: across all the modelled operations of the four game variants, a
`high_scores` slot changes only at the moment `game_over` flips from false to
true with the current score strictly above the stored value (in which case it
becomes the score); ticks that do not end the game, inputs, level resets and
play-again resets leave the slot untouched. -/
theorem high_scores_update_policy :
    (∀ now fuel s s', update_snake now fuel s = some s' →
      high_score_update_ok s.game_over s'.game_over s.score
        s.high_score s'.high_score) ∧
    (∀ tx ty fuel now s s', snake_handle_touch tx ty fuel now s = some s' →
      s'.high_score = s.high_score) ∧
    (∀ fuel now s s', init_snake fuel now s = some s' →
      s'.high_score = s.high_score) ∧
    (∀ st : TetrisState, st.game_over = false →
      high_score_update_ok st.game_over (tetris_spawn_new_piece st).game_over
        st.score st.high_score (tetris_spawn_new_piece st).high_score) ∧
    (∀ rows st, ((tetris_clear_lines rows st).2).high_score = st.high_score) ∧
    (∀ s : BreakoutState,
      high_score_update_ok s.game_over (update_breakout s).game_over
        s.score s.high_score (update_breakout s).high_score) ∧
    (∀ s : BreakoutState, (init_breakout s).high_score = s.high_score) ∧
    (∀ b a s, (update_asteroids_bullet_hit b a s).high_score = s.high_score) ∧
    (∀ l s, s.game_over = false →
      high_score_update_ok s.game_over (update_asteroids_ship_check l s).game_over
        s.score s.high_score (update_asteroids_ship_check l s).high_score) ∧
    (∀ level s, (init_asteroids level s).high_score = s.high_score) := by
  refine ⟨update_snake_high, update_snake_touch_high, ?_, tetris_spawn_high, ?_,
    update_breakout_high, fun s => rfl, ?_, update_asteroids_ship_check_high,
    fun level s => rfl⟩
  · intro fuel now s s' hup
    rw [init_snake] at hup
    have hh := init_snake_food_high fuel _ s' hup
    exact hh
  · intro rows st
    rw [tetris_clear_lines]
    split
    · simp only []
      split <;> rfl
    · rfl
  · intro b a s
    rw [update_asteroids_bullet_hit]
    split <;> rfl

/-- Witness for C9: the blocked Tetris spawn of `tetris_spawn_blocked_state`
(game over turning true with score 500 over high score 0) obeys the policy. -/
theorem high_scores_update_policy_witness :
    high_score_update_ok tetris_spawn_blocked_state.game_over
      (tetris_spawn_new_piece tetris_spawn_blocked_state).game_over
      tetris_spawn_blocked_state.score tetris_spawn_blocked_state.high_score
      (tetris_spawn_new_piece tetris_spawn_blocked_state).high_score :=
  high_scores_update_policy.2.2.2.1 tetris_spawn_blocked_state rfl
